import Mathlib

/-!
Shallow embedding of the AI-EDIT-IMAGE batch image-editing tool
(src/App.tsx, src/types.ts, src/unnamed/part_000) in Lean 4, together
with theorems settling the specification claims.

The embedding models:
  * the `ProcessedImage` task record (src/types.ts);
  * the three state transitions of `processOne` (src/App.tsx lines 111-144);
  * the entry points `startSingleWorkflow` and `startWorkflow`
    (src/App.tsx lines 146-195), including the target filter and the
    concurrency pool;
  * the request construction of the native Gemini adapter and the
    error handling of the custom (Ark) adapter (src/unnamed/part_000).
-/

/-- Task status, from `ProcessedImage.status` in src/types.ts:
`'pending' | 'processing' | 'completed' | 'error'`. -/
inductive Status where
  | pending
  | processing
  | completed
  | error
deriving DecidableEq, Repr

/-- The `ProcessedImage` interface of src/types.ts.  Optional fields
(`editedUrl?`, `error?`) become `Option String`. -/
structure ProcessedImage where
  id : String
  originalName : String
  originalUrl : String
  editedUrl : Option String := none
  status : Status
  error : Option String := none
  selected : Bool
deriving DecidableEq, Repr

/-- A freshly uploaded image, from `handleFolderUpload` (src/App.tsx
lines 62-70): `status: 'pending'`, `selected: true`, no edited url and
no error. -/
def mkPendingImage (id name url : String) : ProcessedImage :=
  { id := id, originalName := name, originalUrl := url,
    status := Status.pending, selected := true }

/-- Function `toggleSelect` (src/App.tsx lines 76-80): flip `selected` of the
image with the given id. -/
def toggleSelect (images : List ProcessedImage) (id : String) : List ProcessedImage :=
  images.map fun img =>
    if img.id = id then { img with selected := !img.selected } else img

/-- Function `selectAll` (src/App.tsx lines 82-84): set every image's `selected`. -/
def selectAll (images : List ProcessedImage) (selected : Bool) : List ProcessedImage :=
  images.map fun img => { img with selected := selected }

/-- JavaScript truthiness of an optional string value: `undefined`/absent
and the empty string are falsy. -/
def jsTruthy : Option String → Bool
  | none => false
  | some s => !(s = "")

/-- JavaScript `a || b` on optional string values, as used in
`error.message || '处理失败'` and `data.data?.[0]?.url || data.output?.[0]?.url`. -/
def jsOrString (a : Option String) (b : Option String) : Option String :=
  if jsTruthy a then a else b

/-- The error-message normalization of `processOne`'s catch block
(src/App.tsx lines 131-136): `let message = error.message || '处理失败'`,
then replace the exact string `"PERMISSION_DENIED"` with the
user-facing remediation string. -/
def normalizeErrorMessage (errMessage : Option String) : String :=
  let message := (jsOrString errMessage (some "处理失败")).getD "处理失败"
  if message = "PERMISSION_DENIED" then
    "权限被拒绝。请尝试切换到 Flash 模型，或选择有效的付费 API 密钥。"
  else message

/-- Entry transition of `processOne` (src/App.tsx lines 113-115): the
target task gets `status: 'processing', error: undefined`; every other
task is untouched.  Note `editedUrl` is NOT cleared. -/
def processOneStart (images : List ProcessedImage) (targetId : String) : List ProcessedImage :=
  images.map fun img =>
    if img.id = targetId then { img with status := Status.processing, error := none } else img

/-- Success transition of `processOne` (src/App.tsx lines 128-130): the
target task gets `status: 'completed', editedUrl: result`. -/
def processOneSuccess (images : List ProcessedImage) (targetId : String) (result : String) :
    List ProcessedImage :=
  images.map fun img =>
    if img.id = targetId then
      { img with status := Status.completed, editedUrl := some result }
    else img

/-- Failure transition of `processOne` (src/App.tsx lines 137-139): the
target task gets `status: 'error', error: <normalized message>`. -/
def processOneFailure (images : List ProcessedImage) (targetId : String)
    (errMessage : Option String) : List ProcessedImage :=
  images.map fun img =>
    if img.id = targetId then
      { img with status := Status.error, error := some (normalizeErrorMessage errMessage) }
    else img

/-- Outcome of one adapter call inside `processOne`: either
`editImage` resolves with a result reference, or it throws with an
optional message (`error.message` may be absent). -/
inductive ProcessOutcome where
  | success (result : String)
  | failure (errMessage : Option String)
deriving DecidableEq, Repr

/-- The net effect of one complete `processOne` call on the task
collection: the entry transition followed by the terminal transition
for the given adapter outcome. -/
def processOneRun (images : List ProcessedImage) (targetId : String)
    (o : ProcessOutcome) : List ProcessedImage :=
  match o with
  | ProcessOutcome.success r => processOneSuccess (processOneStart images targetId) targetId r
  | ProcessOutcome.failure m => processOneFailure (processOneStart images targetId) targetId m

/-- Result of the single-item entry point. -/
inductive SingleOutcome where
  | promptAlert
  | dispatch (image : ProcessedImage)
deriving DecidableEq, Repr

/-- Whitespace predicate of JavaScript `String.prototype.trim()`
(restricted to the common ASCII whitespace characters). -/
def isJsWhitespace (c : Char) : Bool :=
  c = ' ' || c = '\t' || c = '\n' || c = '\r'

/-- JavaScript `String.prototype.trim()`: strip leading and trailing
whitespace.  Used by both workflow entry points in `config.prompt.trim()`. -/
def jsTrim (s : String) : String :=
  String.mk (((s.data.dropWhile isJsWhitespace).reverse.dropWhile isJsWhitespace).reverse)

/-- Entry point `startSingleWorkflow` (src/App.tsx lines 146-155): alert when the
trimmed prompt is empty (JS falsy), otherwise dispatch the given image
to `processOne` — with no check whatsoever on the image's status. -/
def startSingleWorkflow (prompt : String) (image : ProcessedImage) : SingleOutcome :=
  if jsTrim prompt = "" then SingleOutcome.promptAlert
  else SingleOutcome.dispatch image

/-- The batch target filter of `startWorkflow` (src/App.tsx line 165):
`images.filter(img => img.selected && (img.status === 'pending' ||
img.status === 'error' || img.status === 'completed'))`. -/
def startWorkflowTargets (images : List ProcessedImage) : List ProcessedImage :=
  images.filter fun img =>
    img.selected &&
      (img.status = Status.pending || img.status = Status.error ||
        img.status = Status.completed)

/-- Result of the batch entry point, before any worker is spawned or
any task mutated: either one of the two early-return alerts, or a run
over the filtered target list. -/
inductive BatchOutcome where
  | promptAlert
  | nothingSelectedAlert
  | run (targets : List ProcessedImage)
deriving DecidableEq, Repr

/-- The control flow of `startWorkflow` up to pool launch (src/App.tsx
lines 157-172): empty trimmed prompt alerts and returns; an empty
filtered target list alerts and returns (no task is mutated and no
worker is spawned on either alert path); otherwise the run proceeds on
the filtered targets. -/
def startWorkflow (prompt : String) (images : List ProcessedImage) : BatchOutcome :=
  if jsTrim prompt = "" then BatchOutcome.promptAlert
  else
    let targets := startWorkflowTargets images
    if targets.length = 0 then BatchOutcome.nothingSelectedAlert
    else BatchOutcome.run targets

/-- Occurrence of one character sequence inside another, checked at
every suffix position. -/
def occursWithin (sub : List Char) : List Char → Bool
  | [] => List.isPrefixOf sub []
  | c :: rest => List.isPrefixOf sub (c :: rest) || occursWithin sub rest

/-- Check `modelName.includes('image')` (src/unnamed/part_000 line 54):
substring containment. -/
def strIncludes (s sub : String) : Bool :=
  occursWithin sub.data s.data

/-- The `imageConfig` object built by `handleGemini`
(src/unnamed/part_000 lines 54-60): fixed `aspectRatio: "1:1"`, and the
`imageSize` field attached only for the one model that supports
variable resolution. -/
structure GeminiImageConfig where
  aspectRatio : String
  imageSize : Option String
deriving DecidableEq, Repr

/-- Request construction of the native adapter (src/unnamed/part_000
lines 49-60): when the model name contains `"image"`, the request
carries an `imageConfig` with `aspectRatio: "1:1"`, plus
`imageSize` exactly when `modelName === 'gemini-3-pro-image-preview'`;
otherwise no `imageConfig` is attached at all. -/
def buildGeminiImageConfig (modelName imageSize : String) : Option GeminiImageConfig :=
  if strIncludes modelName "image" then
    some { aspectRatio := "1:1",
           imageSize :=
             if modelName = "gemini-3-pro-image-preview" then some imageSize else none }
  else none

/-- The resolution parameter actually present in the outgoing native
request: the `imageSize` field of the attached `imageConfig`, if any. -/
def geminiRequestImageSize (modelName imageSize : String) : Option String :=
  (buildGeminiImageConfig modelName imageSize).bind GeminiImageConfig.imageSize

/-- Observable shape of the custom-adapter HTTP response
(src/unnamed/part_000 lines 104-135): numeric status, status text, the
parsed `errorData.error?.message` (absent when the body is not JSON or
carries no such field), and the two alternate result-url locations
`data[0].url` / `output[0].url`. -/
structure ArkResponse where
  status : Nat
  statusText : String
  errorMessage : Option String
  dataUrl : Option String
  outputUrl : Option String
deriving DecidableEq, Repr

/-- Field `response.ok`: status in the 2xx range. -/
def responseOk (status : Nat) : Bool :=
  200 ≤ status && status ≤ 299

/-- The generic failure message of `handleCustomApi`
(src/unnamed/part_000 line 123): `API 请求失败: <status> <statusText>`. -/
def customApiGenericMessage (status : Nat) (statusText : String) : String :=
  "API 请求失败: " ++ toString status ++ " " ++ statusText

/-- The message thrown for a non-ok response (src/unnamed/part_000
line 123): `errorData.error?.message || <generic>` (JS `||`, so an
empty-string parsed message also falls back to the generic one). -/
def customApiErrorMessage (r : ArkResponse) : String :=
  (jsOrString r.errorMessage
    (some (customApiGenericMessage r.status r.statusText))).getD ""

/-- The transport-failure guidance text of `handleCustomApi`'s catch
block (src/unnamed/part_000 line 138). -/
def fetchFailureGuidance : String :=
  "网络请求失败 (Failed to fetch)。通常由于：1. API 地址不可达 2. 目标服务器不支持跨域访问 (CORS)。如果是跨域问题，请开启浏览器跨域限制或使用代理。"

/-- The catch block of `handleCustomApi` (src/unnamed/part_000 lines
136-141): any error escaping the try block whose message is exactly
`Failed to fetch` is rewritten into the CORS/unreachable guidance
text; every other error is rethrown unchanged. -/
def rewriteFetchFailure (m : String) : String :=
  if m = "Failed to fetch" then fetchFailureGuidance else m

/-- Response handling of `handleCustomApi` (src/unnamed/part_000
lines 104-141): inside the try block, a non-2xx response throws the
parsed-or-generic error message, and a 2xx response returns
`data[0].url || output[0].url` or throws when neither is truthy; the
surrounding catch then rewrites a `Failed to fetch` message into the
guidance text. -/
def handleCustomApiResponse (r : ArkResponse) : Except String String :=
  let tried : Except String String :=
    if responseOk r.status then
      let imageUrl := jsOrString r.dataUrl r.outputUrl
      if jsTruthy imageUrl then Except.ok (imageUrl.getD "")
      else Except.error "API 未返回有效的图片链接。请检查 API 配置或 Payload 结构。"
    else Except.error (customApiErrorMessage r)
  match tried with
  | Except.ok v => Except.ok v
  | Except.error m => Except.error (rewriteFetchFailure m)

/-! ## Concurrency pool scheduler (src/App.tsx lines 174-193)

The pool seeds one shared queue with the targets (`const queue =
[...targets]`), spawns `Math.min(maxConcurrency, queue.length)`
workers, and each worker loops `queue.shift()` — an atomic head pop in
the single-threaded event loop — handing the popped item to
`processOne`.  A pool state records the remaining queue and, per
worker, the list of items that worker has popped (its `processOne`
invocations, in order). -/

/-- The `progress` pair of src/App.tsx line 37. -/
structure Progress where
  current : Nat
  total : Nat
deriving DecidableEq, Repr

/-- A batch run in flight: the remaining shared queue, the task
collection, and the progress pair. -/
structure BatchState where
  queue : List ProcessedImage
  images : List ProcessedImage
  progress : Progress
deriving DecidableEq, Repr

/-- One unit of batch work: a worker pops the queue head, `processOne`
runs it to its terminal transition (success or failure), and the
`finally` block bumps `progress.current` by exactly one. -/
inductive BatchStep : BatchState → BatchState → Prop
  | pop (t : ProcessedImage) (rest images : List ProcessedImage)
      (progress : Progress) (o : ProcessOutcome) :
      BatchStep ⟨t :: rest, images, progress⟩
        ⟨rest, processOneRun images t.id o,
          { progress with current := progress.current + 1 }⟩

/-- Start of a batch run (src/App.tsx lines 171-175): the queue is
seeded with all targets and progress is `{current: 0, total:
targets.length}`. -/
def batchInit (targets images : List ProcessedImage) : BatchState :=
  ⟨targets, images, ⟨0, targets.length⟩⟩

/-- All states reachable during a batch run. -/
def BatchReach : BatchState → BatchState → Prop :=
  Relation.ReflTransGen BatchStep

/-! ## Observable task-collection states (C1)

Every `setImages` call in src/App.tsx produces an observable snapshot
of the task collection.  `AppStep` enumerates those mutations: folder
upload, selection toggles, clearing, and the three `processOne`
transitions.  Adapter settlements (`succeed`/`fail`) carry no
precondition, exactly as in the code: the `setImages` calls at
src/App.tsx lines 128-130 and 137-139 run whenever the promise
settles, whatever the target's current status — so concurrent
double dispatch of one task (possible through the unguarded
single-item path) is included. -/

inductive AppStep : List ProcessedImage → List ProcessedImage → Prop
  | upload (images : List ProcessedImage) (files : List (String × String × String)) :
      AppStep images
        (images ++ files.map fun f => mkPendingImage f.1 f.2.1 f.2.2)
  | toggle (images : List ProcessedImage) (id : String) :
      AppStep images (toggleSelect images id)
  | selAll (images : List ProcessedImage) (b : Bool) :
      AppStep images (selectAll images b)
  | clear (images : List ProcessedImage) :
      AppStep images []
  | dispatch (images : List ProcessedImage) (targetId : String) :
      AppStep images (processOneStart images targetId)
  | succeed (images : List ProcessedImage) (targetId result : String) :
      AppStep images (processOneSuccess images targetId result)
  | fail (images : List ProcessedImage) (targetId : String) (errMessage : Option String) :
      AppStep images (processOneFailure images targetId errMessage)

/-- Task collections observable from a given one. -/
def AppReach : List ProcessedImage → List ProcessedImage → Prop :=
  Relation.ReflTransGen AppStep

/-- The per-task field invariant that actually holds at every
observable point: a `processing` task never carries an `error`; an
`error` task always has `error` set; a `completed` task always has
`editedUrl` set; an `error` field can only be set on an `error` or
`completed` task (the latter when a success settles over a failed
concurrent attempt without clearing its message); and a `pending`
task has neither field set. -/
def taskInvariant (img : ProcessedImage) : Prop :=
  (img.status = Status.processing → img.error = none) ∧
  (img.status = Status.error → img.error.isSome) ∧
  (img.status = Status.completed → img.editedUrl.isSome) ∧
  (img.error.isSome → (img.status = Status.error ∨ img.status = Status.completed)) ∧
  (img.status = Status.pending → img.error = none ∧ img.editedUrl = none)

/-! ## Claim theorems -/

/-- C2: `processOne` performs exactly these transitions on its target
task: on entry it sets status to `processing` and clears the error
field; on adapter success it sets status to `completed` and stores the
result as the edited reference; on adapter failure it sets status to
`error` and stores the failure message, replacing the exact message
`PERMISSION_DENIED` with the user-facing remediation string. -/
theorem processOne_target_transitions (images : List ProcessedImage)
    (targetId result : String) (errMessage : Option String) (i : Nat)
    (img : ProcessedImage) (himg : images[i]? = some img) (hid : img.id = targetId) :
    (processOneStart images targetId)[i]? =
      some { img with status := Status.processing, error := none } ∧
    (processOneSuccess images targetId result)[i]? =
      some { img with status := Status.completed, editedUrl := some result } ∧
    (processOneFailure images targetId errMessage)[i]? =
      some { img with status := Status.error, error := some (normalizeErrorMessage errMessage) } ∧
    normalizeErrorMessage (some "PERMISSION_DENIED") =
      "权限被拒绝。请尝试切换到 Flash 模型，或选择有效的付费 API 密钥。" ∧
    (∀ m : String, m ≠ "PERMISSION_DENIED" → m ≠ "" →
      normalizeErrorMessage (some m) = m) := by
  refine ⟨?_, ?_, ?_, rfl, ?_⟩
  · simp [processOneStart, List.getElem?_map, himg, hid]
  · simp [processOneSuccess, List.getElem?_map, himg, hid]
  · simp [processOneFailure, List.getElem?_map, himg, hid]
  · intro m hperm hempty
    simp [normalizeErrorMessage, jsOrString, jsTruthy, hperm, hempty]

/-- Witness for C2 at a concrete one-element collection. -/
theorem processOne_target_transitions_witness :
    (processOneStart [mkPendingImage "a" "n" "u"] "a")[0]? =
      some { (mkPendingImage "a" "n" "u") with
             status := Status.processing, error := none } :=
  (processOne_target_transitions [mkPendingImage "a" "n" "u"] "a" "r" none 0
    (mkPendingImage "a" "n" "u") rfl rfl).1

/-- C6: the three `processOne` transitions modify only the status,
error and edited-reference fields of the one targeted task: any task
with a different id is completely unchanged, and even the targeted
task keeps its `selected`, `id`, `originalName` and `originalUrl`. -/
theorem processOne_frame (images : List ProcessedImage) (targetId result : String)
    (errMessage : Option String) (i : Nat) (img : ProcessedImage)
    (himg : images[i]? = some img) :
    (img.id ≠ targetId →
      (processOneStart images targetId)[i]? = some img ∧
      (processOneSuccess images targetId result)[i]? = some img ∧
      (processOneFailure images targetId errMessage)[i]? = some img) ∧
    (∀ img', (processOneStart images targetId)[i]? = some img' →
      img'.selected = img.selected ∧ img'.id = img.id ∧
      img'.originalName = img.originalName ∧ img'.originalUrl = img.originalUrl) ∧
    (∀ img', (processOneSuccess images targetId result)[i]? = some img' →
      img'.selected = img.selected ∧ img'.id = img.id ∧
      img'.originalName = img.originalName ∧ img'.originalUrl = img.originalUrl) ∧
    (∀ img', (processOneFailure images targetId errMessage)[i]? = some img' →
      img'.selected = img.selected ∧ img'.id = img.id ∧
      img'.originalName = img.originalName ∧ img'.originalUrl = img.originalUrl) := by
  refine ⟨fun hid => ?_, ?_, ?_, ?_⟩
  · simp [processOneStart, processOneSuccess, processOneFailure,
      List.getElem?_map, himg, hid]
  all_goals
    intro img' h
    simp only [processOneStart, processOneSuccess, processOneFailure,
      List.getElem?_map, himg, Option.map_some', Option.some.injEq] at h
    subst h
    by_cases hid : img.id = targetId <;> simp [hid]

/-- Witness for C6 at a concrete one-element collection. -/
theorem processOne_frame_witness :
    (processOneStart [mkPendingImage "a" "n" "u"] "b")[0]? =
      some (mkPendingImage "a" "n" "u") :=
  ((processOne_frame [mkPendingImage "a" "n" "u"] "b" "r" none 0
    (mkPendingImage "a" "n" "u") rfl).1 (by decide)).1

/-- A concrete task currently in flight, used to exercise the absence
of a status guard on the single-item path. -/
def inFlightTask : ProcessedImage :=
  { id := "a", originalName := "n", originalUrl := "u", editedUrl := none,
    status := Status.processing, error := none, selected := true }

/-- C9 counterexample: a whitespace-only prompt is non-empty, yet the
single-item entry point alerts instead of dispatching — the actual
check is on the trimmed prompt, not on prompt non-emptiness. -/
theorem startSingleWorkflow_blank_prompt :
    (" " : String) ≠ "" ∧
    startSingleWorkflow " " inFlightTask = SingleOutcome.promptAlert ∧
    startSingleWorkflow " " inFlightTask ≠ SingleOutcome.dispatch inFlightTask := by
  refine ⟨by decide, rfl, by decide⟩

/-- C9 (amended): `startSingleWorkflow` checks only that the prompt is
non-blank (non-empty after trimming whitespace); for every task,
whatever its current status — including `processing` — a single-item
run with a non-blank prompt dispatches that task, with no status
precondition on this path. -/
theorem startSingleWorkflow_no_status_guard (prompt : String) (image : ProcessedImage)
    (hp : jsTrim prompt ≠ "") :
    startSingleWorkflow prompt image = SingleOutcome.dispatch image := by
  simp [startSingleWorkflow, hp]

/-- Witness for C9 at a concrete prompt and an in-flight task. -/
theorem startSingleWorkflow_no_status_guard_witness :
    startSingleWorkflow "p" inFlightTask = SingleOutcome.dispatch inFlightTask :=
  startSingleWorkflow_no_status_guard "p" inFlightTask (by decide)

/-- C5: the batch target list is exactly the tasks with `selected =
true` and status in pending, error or completed; it never contains an
unselected or `processing` task; and when it is empty the run surfaces
the nothing-selected alert (returning before any task is mutated or
any worker spawned), while a non-empty list launches the run on
exactly the filtered targets. -/
theorem startWorkflow_filter (prompt : String) (images : List ProcessedImage)
    (hp : jsTrim prompt ≠ "") :
    (∀ t, t ∈ startWorkflowTargets images ↔
      (t ∈ images ∧ t.selected = true ∧
        (t.status = Status.pending ∨ t.status = Status.error ∨
          t.status = Status.completed))) ∧
    (∀ t ∈ startWorkflowTargets images,
      t.selected = true ∧ t.status ≠ Status.processing) ∧
    (startWorkflowTargets images = [] →
      startWorkflow prompt images = BatchOutcome.nothingSelectedAlert) ∧
    (startWorkflowTargets images ≠ [] →
      startWorkflow prompt images = BatchOutcome.run (startWorkflowTargets images)) := by
  have hmem : ∀ t, t ∈ startWorkflowTargets images ↔
      (t ∈ images ∧ t.selected = true ∧
        (t.status = Status.pending ∨ t.status = Status.error ∨
          t.status = Status.completed)) := by
    intro t
    simp only [startWorkflowTargets, List.mem_filter, Bool.and_eq_true,
      Bool.or_eq_true, decide_eq_true_eq, and_assoc, or_assoc]
  refine ⟨hmem, ?_, ?_, ?_⟩
  · intro t ht
    rcases (hmem t).mp ht with ⟨-, hsel, hst⟩
    refine ⟨hsel, ?_⟩
    rcases hst with h | h | h <;> simp [h]
  · intro hempty
    simp [startWorkflow, hp, hempty]
  · intro hne
    simp [startWorkflow, hp, List.length_eq_zero, hne]

/-- Witness for C5: one unselected pending task yields an empty target
list and the nothing-selected alert. -/
theorem startWorkflow_filter_witness :
    startWorkflow "p" [{ (mkPendingImage "a" "n" "u") with selected := false }] =
      BatchOutcome.nothingSelectedAlert :=
  (startWorkflow_filter "p" [{ (mkPendingImage "a" "n" "u") with selected := false }]
    (by decide)).2.2.1 (by decide)

/-- C7: the native adapter's outgoing request includes the resolution
parameter (`imageSize`) exactly for the one model declared to support
variable resolution (`gemini-3-pro-image-preview`); for any other
model the request omits it even though `imageSize` is configured,
while image-capable model names still get the fixed `aspectRatio:
"1:1"` image configuration. -/
theorem gemini_imageSize_gating (modelName imageSize : String) :
    (geminiRequestImageSize modelName imageSize = some imageSize ↔
      modelName = "gemini-3-pro-image-preview") ∧
    (modelName ≠ "gemini-3-pro-image-preview" →
      geminiRequestImageSize modelName imageSize = none) ∧
    (strIncludes modelName "image" = true →
      ∃ cfg, buildGeminiImageConfig modelName imageSize = some cfg ∧
        cfg.aspectRatio = "1:1" ∧
        (cfg.imageSize = some imageSize ↔ modelName = "gemini-3-pro-image-preview") ∧
        (modelName ≠ "gemini-3-pro-image-preview" → cfg.imageSize = none)) := by
  by_cases hm : modelName = "gemini-3-pro-image-preview"
  · subst hm
    refine ⟨by simp [geminiRequestImageSize, buildGeminiImageConfig, strIncludes,
      occursWithin], by simp, fun _ => ?_⟩
    refine ⟨{ aspectRatio := "1:1", imageSize := some imageSize }, rfl, rfl, by simp, by simp⟩
  · by_cases hcap : strIncludes modelName "image" = true
    · refine ⟨?_, ?_, fun _ => ?_⟩
      · simp [geminiRequestImageSize, buildGeminiImageConfig, hcap, hm]
      · intro _
        simp [geminiRequestImageSize, buildGeminiImageConfig, hcap, hm]
      · refine ⟨{ aspectRatio := "1:1", imageSize := none }, ?_, rfl, by simp [hm], fun _ => rfl⟩
        simp [buildGeminiImageConfig, hcap, hm]
    · refine ⟨?_, ?_, fun h => absurd h hcap⟩
      · simp [geminiRequestImageSize, buildGeminiImageConfig, hcap, hm]
      · intro _
        simp [geminiRequestImageSize, buildGeminiImageConfig, hcap]

/-- Witness for C7: the flash image model (no variable-resolution
support) yields a request without `imageSize` even with `imageSize`
configured, and the pro model yields one with it. -/
theorem gemini_imageSize_gating_witness :
    geminiRequestImageSize "gemini-2.5-flash-image" "4K" = none ∧
    geminiRequestImageSize "gemini-3-pro-image-preview" "4K" = some "4K" :=
  ⟨(gemini_imageSize_gating "gemini-2.5-flash-image" "4K").2.1 (by decide),
   (gemini_imageSize_gating "gemini-3-pro-image-preview" "4K").1.mpr rfl⟩

/-- C8 counterexample: a 401 response whose JSON body carries
`error.message = ""` does not fail with that parsed message — the
empty string is JS-falsy, so the adapter falls back to the generic
`"<status> <statusText>"` message instead. -/
theorem customApi_empty_message :
    handleCustomApiResponse
      { status := 401, statusText := "Unauthorized", errorMessage := some "",
        dataUrl := none, outputUrl := none } =
      Except.error "API 请求失败: 401 Unauthorized" ∧
    ("API 请求失败: 401 Unauthorized" : String) ≠ "" := by
  exact ⟨rfl, by decide⟩

/-- The generic failure message always starts with `API 请求失败: `,
so it can never be the transport-failure signature `Failed to fetch`
(the catch block therefore never rewrites it). -/
theorem customApiGenericMessage_ne_failedToFetch (status : Nat) (statusText : String) :
    customApiGenericMessage status statusText ≠ "Failed to fetch" := by
  intro h
  have hd := congrArg String.data h
  simp only [customApiGenericMessage, String.data_append] at hd
  simp only [List.cons_append, List.cons.injEq] at hd
  exact absurd hd.1 (by decide)

/-- C8 (amended): for a non-2xx custom-adapter response, the adapter
fails with the server's parsed `error.message` when that message is
present, non-empty and not exactly `Failed to fetch` (e.g. a 401 with
body `{"error":{"message":"bad key"}}` yields `"bad key"`); a parsed
message equal to `Failed to fetch` is rewritten by the surrounding
catch into the CORS/unreachable guidance text; and when the body
carries no parseable message — or an empty one, which JS `||` treats
as absent — it fails with the generic message built from the numeric
status and status text. -/
theorem customApi_error_message (r : ArkResponse) (hok : responseOk r.status = false) :
    (∀ m, r.errorMessage = some m → m ≠ "" → m ≠ "Failed to fetch" →
      handleCustomApiResponse r = Except.error m) ∧
    (r.errorMessage = some "Failed to fetch" →
      handleCustomApiResponse r = Except.error fetchFailureGuidance) ∧
    ((r.errorMessage = none ∨ r.errorMessage = some "") →
      handleCustomApiResponse r =
        Except.error (customApiGenericMessage r.status r.statusText)) := by
  refine ⟨?_, ?_, ?_⟩
  · intro m hm hne hnf
    simp [handleCustomApiResponse, hok, customApiErrorMessage, hm, jsOrString, jsTruthy,
      hne, rewriteFetchFailure, hnf]
  · intro hm
    simp [handleCustomApiResponse, hok, customApiErrorMessage, hm, jsOrString, jsTruthy,
      rewriteFetchFailure]
  · rintro (hm | hm) <;>
      simp [handleCustomApiResponse, hok, customApiErrorMessage, hm, jsOrString, jsTruthy,
        rewriteFetchFailure, customApiGenericMessage_ne_failedToFetch r.status r.statusText]

/-- Witness for C8: the 401 `"bad key"` scenario of the specification. -/
theorem customApi_error_message_witness :
    handleCustomApiResponse
      { status := 401, statusText := "Unauthorized", errorMessage := some "bad key",
        dataUrl := none, outputUrl := none } =
      Except.error "bad key" :=
  (customApi_error_message
    { status := 401, statusText := "Unauthorized", errorMessage := some "bad key",
      dataUrl := none, outputUrl := none } (by decide)).1 "bad key" rfl (by decide) (by decide)

/-- Pointwise effect of a complete `processOne` call: every element of
the resulting collection comes from an element of the input with the
same id; the target id ends in a terminal status, and every other task
is untouched. -/
theorem mem_processOneRun (images : List ProcessedImage) (targetId : String)
    (o : ProcessOutcome) (img' : ProcessedImage)
    (h : img' ∈ processOneRun images targetId o) :
    ∃ img ∈ images, img'.id = img.id ∧
      (img.id = targetId →
        (img'.status = Status.completed ∨ img'.status = Status.error)) ∧
      (img.id ≠ targetId → img' = img) := by
  cases o with
  | success r =>
    simp only [processOneRun, processOneSuccess, processOneStart,
      List.map_map, List.mem_map, Function.comp] at h
    obtain ⟨img, hmem, heq⟩ := h
    refine ⟨img, hmem, ?_, ?_, ?_⟩ <;> by_cases hid : img.id = targetId <;>
      simp [hid] at heq <;> subst heq <;> simp [hid]
  | failure m =>
    simp only [processOneRun, processOneFailure, processOneStart,
      List.map_map, List.mem_map, Function.comp] at h
    obtain ⟨img, hmem, heq⟩ := h
    refine ⟨img, hmem, ?_, ?_, ?_⟩ <;> by_cases hid : img.id = targetId <;>
      simp [hid] at heq <;> subst heq <;> simp [hid]

/-- Inductive invariant of a batch run: total is pinned to the target
count, `current` counts exactly the dequeued items, and every task
whose id is among the targets is either still queued or already
terminal. -/
theorem batchReach_inv (targets images : List ProcessedImage) (s : BatchState)
    (h : BatchReach (batchInit targets images) s) :
    s.progress.total = targets.length ∧
    s.progress.current + s.queue.length = targets.length ∧
    (∀ img ∈ s.images, img.id ∈ targets.map ProcessedImage.id →
      (img.id ∈ s.queue.map ProcessedImage.id ∨
        img.status = Status.completed ∨ img.status = Status.error)) := by
  induction h with
  | refl =>
    refine ⟨rfl, by simp [batchInit], ?_⟩
    intro img _ hin
    exact Or.inl hin
  | tail _ hstep ih =>
    obtain ⟨ihtot, ihcnt, ihst⟩ := ih
    cases hstep with
    | pop t rest images' progress o =>
      refine ⟨ihtot, by simp only at ihcnt ⊢; simp at ihcnt ⊢; omega, ?_⟩
      intro img' hmem hin
      obtain ⟨img, hmem0, hid, hterm, hframe⟩ :=
        mem_processOneRun images' t.id o img' hmem
      by_cases hidt : img.id = t.id
      · exact Or.inr (hterm hidt)
      · rw [hframe hidt] at hid ⊢
        rw [hframe hidt] at hin
        rcases ihst img hmem0 hin with hq | hterm'
        · simp only [List.map_cons, List.mem_cons] at hq
          rcases hq with heq | hq
          · exact absurd heq hidt
          · exact Or.inl hq
        · exact Or.inr hterm'

/-- C4: a batch run initializes progress to `{current: 0, total:
|targets|}`; every unit of batch work bumps `progress.current` by
exactly one whatever the task outcome; and when the queue has drained,
`progress.current = progress.total = |targets|` and no task targeted
by the run is left in status `processing` — each is `completed` or
`error`. -/
theorem batch_progress (targets images : List ProcessedImage) (s : BatchState)
    (h : BatchReach (batchInit targets images) s) :
    (batchInit targets images).progress = ⟨0, targets.length⟩ ∧
    (∀ u v : BatchState, BatchStep u v →
      v.progress.current = u.progress.current + 1 ∧
      v.progress.total = u.progress.total) ∧
    (s.queue = [] →
      s.progress.current = targets.length ∧
      s.progress.total = targets.length ∧
      ∀ img ∈ s.images, img.id ∈ targets.map ProcessedImage.id →
        (img.status = Status.completed ∨ img.status = Status.error)) := by
  obtain ⟨htot, hcnt, hst⟩ := batchReach_inv targets images s h
  refine ⟨rfl, ?_, ?_⟩
  · intro u v hstep
    cases hstep with
    | pop t rest images' progress o => exact ⟨rfl, rfl⟩
  · intro hq
    rw [hq] at hcnt hst
    refine ⟨by simpa using hcnt, htot, ?_⟩
    intro img hmem hin
    rcases hst img hmem hin with hfalse | hterm
    · simp at hfalse
    · exact hterm

/-- Terminal state of a concrete one-target batch run whose single
adapter call succeeded. -/
def batchWitnessFinal : BatchState :=
  ⟨[], processOneRun [mkPendingImage "a" "n" "u"] "a" (ProcessOutcome.success "r"),
    ⟨1, 1⟩⟩

/-- Witness for C4 on that concrete run: final progress is `{1, 1}`
and the target ended terminal. -/
theorem batch_progress_witness :
    batchWitnessFinal.progress.current = [mkPendingImage "a" "n" "u"].length ∧
    batchWitnessFinal.progress.total = [mkPendingImage "a" "n" "u"].length ∧
    ∀ img ∈ batchWitnessFinal.images,
      img.id ∈ [mkPendingImage "a" "n" "u"].map ProcessedImage.id →
      (img.status = Status.completed ∨ img.status = Status.error) :=
  (batch_progress [mkPendingImage "a" "n" "u"] [mkPendingImage "a" "n" "u"]
    batchWitnessFinal
    (Relation.ReflTransGen.single
      (BatchStep.pop (mkPendingImage "a" "n" "u") [] [mkPendingImage "a" "n" "u"]
        ⟨0, 1⟩ (ProcessOutcome.success "r")))).2.2 rfl

/-- Every observable mutation of the task collection preserves the
per-task field invariant. -/
theorem appStep_preserves_invariant {s t : List ProcessedImage}
    (hstep : AppStep s t) (hinv : ∀ img ∈ s, taskInvariant img) :
    ∀ img ∈ t, taskInvariant img := by
  cases hstep with
  | upload files =>
    intro img hmem
    rcases List.mem_append.mp hmem with hold | hnew
    · exact hinv img hold
    · obtain ⟨f, -, rfl⟩ := List.mem_map.mp hnew
      exact ⟨fun _ => rfl, fun h => Status.noConfusion h, fun h => Status.noConfusion h,
        fun h => Bool.noConfusion h, fun _ => ⟨rfl, rfl⟩⟩
  | toggle id =>
    intro img hmem
    simp only [toggleSelect, List.mem_map] at hmem
    obtain ⟨img0, hmem0, heq⟩ := hmem
    by_cases hid : img0.id = id
    · rw [if_pos hid] at heq
      subst heq
      exact hinv img0 hmem0
    · rw [if_neg hid] at heq
      subst heq
      exact hinv img0 hmem0
  | selAll b =>
    intro img hmem
    simp only [selectAll, List.mem_map] at hmem
    obtain ⟨img0, hmem0, heq⟩ := hmem
    subst heq
    exact hinv img0 hmem0
  | clear =>
    intro img hmem
    exact absurd hmem (List.not_mem_nil img)
  | dispatch targetId =>
    intro img hmem
    simp only [processOneStart, List.mem_map] at hmem
    obtain ⟨img0, hmem0, heq⟩ := hmem
    by_cases hid : img0.id = targetId
    · rw [if_pos hid] at heq
      subst heq
      exact ⟨fun _ => rfl, fun h => Status.noConfusion h, fun h => Status.noConfusion h,
        fun h => Bool.noConfusion h, fun h => Status.noConfusion h⟩
    · rw [if_neg hid] at heq
      subst heq
      exact hinv img0 hmem0
  | succeed targetId result =>
    intro img hmem
    simp only [processOneSuccess, List.mem_map] at hmem
    obtain ⟨img0, hmem0, heq⟩ := hmem
    by_cases hid : img0.id = targetId
    · rw [if_pos hid] at heq
      subst heq
      exact ⟨fun h => Status.noConfusion h, fun h => Status.noConfusion h, fun _ => rfl,
        fun _ => Or.inr rfl, fun h => Status.noConfusion h⟩
    · rw [if_neg hid] at heq
      subst heq
      exact hinv img0 hmem0
  | fail targetId errMessage =>
    intro img hmem
    simp only [processOneFailure, List.mem_map] at hmem
    obtain ⟨img0, hmem0, heq⟩ := hmem
    by_cases hid : img0.id = targetId
    · rw [if_pos hid] at heq
      subst heq
      exact ⟨fun h => Status.noConfusion h, fun _ => rfl, fun h => Status.noConfusion h,
        fun _ => Or.inl rfl, fun h => Status.noConfusion h⟩
    · rw [if_neg hid] at heq
      subst heq
      exact hinv img0 hmem0

/-- C1 (amended): at every observable point of the task collection —
with adapter settlements unguarded, exactly as in the code — a
`processing` task never has `error` set; an `error` task always has
`error` set; a `completed` task always has `editedUrl` set; a task
with `error` set has status `error` or `completed` (the latter when a
success settles over a concurrently failed dispatch of the same task
without clearing its message); and a `pending` task has neither field
set.  Neither claimed biconditional holds: `editedUrl` stays set
while a re-dispatched completed task is `processing`, and `error` can
stay set on a `completed` task — see the counterexample. -/
theorem observable_task_invariant (s : List ProcessedImage) (h : AppReach [] s) :
    ∀ img ∈ s, taskInvariant img := by
  induction h with
  | refl =>
    intro img hmem
    exact absurd hmem (List.not_mem_nil img)
  | tail _ hstep ih => exact appStep_preserves_invariant hstep ih

/-- Witness for C1 at a freshly uploaded collection. -/
theorem observable_task_invariant_witness :
    taskInvariant (mkPendingImage "a" "n" "u") :=
  observable_task_invariant [mkPendingImage "a" "n" "u"]
    (Relation.ReflTransGen.single (AppStep.upload [] [("a", "n", "u")]))
    (mkPendingImage "a" "n" "u") (List.mem_singleton.mpr rfl)

/-- The observable task produced by re-dispatching a completed task:
`processing`, yet with the previous edited reference still set,
because `processOne`'s entry transition clears only `error`. -/
def reDispatchedImage : ProcessedImage :=
  { id := "a", originalName := "n", originalUrl := "u", editedUrl := some "R",
    status := Status.processing, error := none, selected := true }

/-- The observable task left when a failure of one in-flight dispatch
settles first and the success of a concurrent second dispatch settles
after it: `completed` with the edited reference set, but with the
stale error message still present, because the success transition
does not clear `error`. -/
def raceSettledImage : ProcessedImage :=
  { id := "a", originalName := "n", originalUrl := "u", editedUrl := some "R",
    status := Status.completed, error := some "boom", selected := true }

/-- C1 counterexample, both directions.  First: upload a task, process
it to `completed` with result `"R"`, then re-dispatch it — the
resulting observable point has the edited reference set while the
status is `processing`.  Second: dispatch a task twice concurrently
(the single-item path has no status guard), let the failure settle and
then the success — the resulting observable point is `completed` with
`error` still set.  Both refute the claimed biconditionals at an
observable point. -/
theorem editedUrl_not_iff_completed :
    (AppReach [] [reDispatchedImage] ∧
      reDispatchedImage.editedUrl.isSome = true ∧
      reDispatchedImage.status ≠ Status.completed) ∧
    (AppReach [] [raceSettledImage] ∧
      raceSettledImage.error.isSome = true ∧
      raceSettledImage.status ≠ Status.error) := by
  constructor
  · refine ⟨?_, rfl, by decide⟩
    have h1 : AppStep ([] : List ProcessedImage) [mkPendingImage "a" "n" "u"] :=
      AppStep.upload [] [("a", "n", "u")]
    have h2 : AppStep [mkPendingImage "a" "n" "u"]
        [{ (mkPendingImage "a" "n" "u") with status := Status.processing, error := none }] :=
      AppStep.dispatch [mkPendingImage "a" "n" "u"] "a"
    have h3 : AppStep
        [{ (mkPendingImage "a" "n" "u") with status := Status.processing, error := none }]
        [{ (mkPendingImage "a" "n" "u") with status := Status.completed, editedUrl := some "R" }] :=
      AppStep.succeed _ "a" "R"
    have h4 : AppStep
        [{ (mkPendingImage "a" "n" "u") with status := Status.completed, editedUrl := some "R" }]
        [reDispatchedImage] :=
      AppStep.dispatch _ "a"
    exact Relation.ReflTransGen.head h1 (Relation.ReflTransGen.head h2
      (Relation.ReflTransGen.head h3 (Relation.ReflTransGen.single h4)))
  · refine ⟨?_, rfl, by decide⟩
    have g1 : AppStep ([] : List ProcessedImage) [mkPendingImage "a" "n" "u"] :=
      AppStep.upload [] [("a", "n", "u")]
    have g2 : AppStep [mkPendingImage "a" "n" "u"]
        [{ (mkPendingImage "a" "n" "u") with status := Status.processing, error := none }] :=
      AppStep.dispatch [mkPendingImage "a" "n" "u"] "a"
    have g3 : AppStep
        [{ (mkPendingImage "a" "n" "u") with status := Status.processing, error := none }]
        [{ (mkPendingImage "a" "n" "u") with status := Status.error, error := some "boom" }] :=
      AppStep.fail _ "a" (some "boom")
    have g4 : AppStep
        [{ (mkPendingImage "a" "n" "u") with status := Status.error, error := some "boom" }]
        [raceSettledImage] :=
      AppStep.succeed _ "a" "R"
    exact Relation.ReflTransGen.head g1 (Relation.ReflTransGen.head g2
      (Relation.ReflTransGen.head g3 (Relation.ReflTransGen.single g4)))
